import Mathlib

/-!
Verification of the ICeDiM blog-tutorial report scripts.

The repository consists of two Python files:
  * reports/blog_tutorial/_gen_stats.py  — statistics helpers
    (get_average, get_std_dev, get_stat, confidence_interval_mean and the
    95% t-value table);
  * reports/blog_tutorial/del_ratio.py   — the driver that loops over
    router names, area strings and run indices, reads one report file per
    run, and prints running averages with confidence intervals.

Shallow embedding conventions:
  * Python floats are modelled as exact rationals (ℚ); the square root
    forced by the expression x ** 0.5 lives in ℝ (Real.sqrt).
  * A Python runtime failure (ZeroDivisionError, KeyError, IndexError,
    ValueError from float(...)) is modelled by Option: none means the
    process dies with an uncaught exception.
  * A report file is modelled by its list of text lines; the file system
    seen by the driver is a function from file names to such line lists.
  * The csv.reader with delimiter equal to one space splits each line on
    every single space (quoting is never used by the report files); an
    empty line yields an empty record, so indexing its first field fails.
  * Standard output is modelled structurally: the inductive type OutLine
    records, for each print statement, which header or data line was
    produced; a data line carries the area string, the two printed real
    numbers and the decimal precision each was formatted with
    (the format string of the source is '%s %.2f %.4f').
-/

/-! ## _gen_stats.py -/

/-- Translation of get_average: sums the entries with a running fold and
divides by the length.  A Python ZeroDivisionError on the empty list is
modelled by none. -/
def get_average (numbers : List ℚ) : Option ℚ :=
  if numbers.length = 0 then none
  else some (numbers.foldl (fun avg x => avg + x) 0 / (numbers.length : ℚ))

/-- Translation of get_std_dev: computes the average, accumulates squared
deviations with a fold, divides the accumulator by the length and takes the
square root (x ** 0.5 in the source).  Fails (none) exactly when
get_average fails, i.e. on the empty list. -/
noncomputable def get_std_dev (num : List ℚ) : Option ℝ :=
  match get_average num with
  | none => none
  | some avg =>
    some (Real.sqrt (((num.foldl (fun v x => v + (x - avg) ^ 2) 0) / (num.length : ℚ) : ℚ) : ℝ))

/-- Splitting a character list at every occurrence of the delimiter, the
way csv.reader with a one-character delimiter splits an unquoted line
(consecutive delimiters produce empty fields). -/
def splitOnChar (c : Char) : List Char → List (List Char)
  | [] => [[]]
  | x :: xs =>
    let r := splitOnChar c xs
    if x = c then [] :: r
    else
      match r with
      | [] => [[x]]
      | h :: t => (x :: h) :: t

/-- The record csv.reader with delimiter ' ' yields for one unquoted line:
an empty line gives the empty record, any other line is split at every
single space. -/
def csvRecord (line : String) : List (List Char) :=
  if line.toList = [] then [] else splitOnChar ' ' line.toList

/-- Digits of a decimal numeral folded into a natural number. -/
def digitsToNat (cs : List Char) : ℕ :=
  cs.foldl (fun a c => 10 * a + (c.toNat - 48)) 0

/-- Model of the Python builtin float(...) on the decimal literals that
occur in report files: an optional sign, an integer part and an optional
fractional part.  Strings outside this shape give none, which models the
ValueError the source would die with. -/
def floatOfChars (s : List Char) : Option ℚ :=
  let sgn : ℚ := if s.take 1 = ['-'] then -1 else 1
  let body : List Char := if s.take 1 = ['-'] || s.take 1 = ['+'] then s.drop 1 else s
  match splitOnChar '.' body with
  | [ip] =>
    if !ip.isEmpty && ip.all Char.isDigit then
      some (sgn * (digitsToNat ip : ℚ))
    else none
  | [ip, fp] =>
    if !(ip.isEmpty && fp.isEmpty) && ip.all Char.isDigit && fp.all Char.isDigit then
      some (sgn * ((digitsToNat ip : ℚ) + (digitsToNat fp : ℚ) / 10 ^ fp.length))
    else none
  | _ => none

/-- One step per report line of get_stat: an empty line makes csv.reader
yield an empty record, so reading its first field raises IndexError (none);
otherwise the first line whose first field has stat_name as a prefix
(line[0].find(stat_name) == 0) has its second field parsed as a float — a
missing second field or an unparsable one is a crash.  Falling off the end
returns the initial result 0.0. -/
def getStatAux (stat_name : List Char) : List String → Option ℚ
  | [] => some 0
  | line :: rest =>
    match csvRecord line with
    | [] => none
    | f0 :: fs =>
      if stat_name.isPrefixOf f0 then
        match fs with
        | f1 :: _ => floatOfChars f1
        | [] => none
      else getStatAux stat_name rest

/-- Translation of get_stat: the report argument is the file's list of
lines; the statistic name defaults to delivery_prob as in the source. -/
def get_stat (report : List String) (stat_name : String := "delivery_prob") : Option ℚ :=
  getStatAux stat_name.toList report

/-- Translation of the module constant __t_values: the 95% two-tailed
critical t-values for degrees of freedom 1 through 18, as an association
list keyed by integers. -/
def t_table : List (ℤ × ℚ) :=
  [(1, 12.71), (2, 4.303), (3, 3.182), (4, 2.776), (5, 2.571), (6, 2.447),
   (7, 2.365), (8, 2.306), (9, 2.262), (10, 2.228), (11, 2.201), (12, 2.179),
   (13, 2.160), (14, 2.145), (15, 2.131), (16, 2.120), (17, 2.110), (18, 2.101)]

/-- Dictionary access __t_values[df]: none models the KeyError raised on a
missing key. -/
def t_values (df : ℤ) : Option ℚ := t_table.lookup df

/-- Translation of confidence_interval_mean: root_n is sample_size ** 0.5;
below 30 samples the t-table is consulted at degrees of freedom
sample_size - 1 (a KeyError propagates as none), otherwise the normal
approximation with critical value 1.96 is used. -/
noncomputable def confidence_interval_mean (sample_size : ℕ) (sample_sd : ℝ) : Option ℝ :=
  let root_n : ℝ := Real.sqrt (sample_size : ℝ)
  if sample_size < 30 then
    (t_values ((sample_size : ℤ) - 1)).map fun t => (t : ℝ) * sample_sd / root_n
  else
    some (1.96 * sample_sd / root_n)

/-! ## del_ratio.py -/

/-- The configured router names. -/
def routers : List String := ["EpidemicRouter", "SprayAndWaitRouter"]

/-- The configured area strings. -/
def areas : List String := ["500,500", "1000,1000", "1500,1500"]

/-- The configured number of runs. -/
def rng_max : ℕ := 5

/-- The run indices of the inner loop, xrange(1, rng_max + 1). -/
def rngList : List ℕ := List.range' 1 rng_max

/-- The report file name built by the driver for a router, an area and a
run index: 'scenario_%s_area-%s_rng-%d_MessageStatsReport.txt'. -/
def fname (router area : String) (i : ℕ) : String :=
  "scenario_" ++ router ++ "_area-" ++ area ++ "_rng-" ++ toString i ++ "_MessageStatsReport.txt"

/-- One line of the modelled standard output: the '# Router <name>' header,
a data line recording the printed area string, the two real numbers and the
decimal precision each is formatted with ('%s %.2f %.4f'), or a blank
line (the trailing print of a bare newline emits two blank lines). -/
inductive OutLine where
  | header (router : String) : OutLine
  | data (area : String) (avg : ℝ) (avgPrec : ℕ) (ci : ℝ) (ciPrec : ℕ) : OutLine
  | blank : OutLine

/-- The statistics block printed at the end of each inner iteration of the
driver: average and standard deviation of the samples collected so far,
confidence interval at the configured rng_max, then the formatted data line
followed by the two blank lines of the bare-newline print. -/
noncomputable def printStats (area : String) (del_ratio : List ℚ) : Option (List OutLine) :=
  (get_average del_ratio).bind fun avg =>
    (get_std_dev del_ratio).bind fun sd =>
      (confidence_interval_mean rng_max sd).map fun ci =>
        [OutLine.data area (avg : ℝ) 2 ci 4, OutLine.blank, OutLine.blank]

/-- The innermost driver loop over run indices: reads the report file for
the current run from the file system fs, appends the extracted statistic to
del_ratio and prints the statistics block, then continues with the grown
sample list. -/
noncomputable def rngLoop (fs : String → List String) (router area : String) :
    List ℕ → List ℚ → Option (List OutLine)
  | [], _ => some []
  | i :: is, del_ratio =>
    (get_stat (fs (fname router area i))).bind fun v =>
      (printStats area (del_ratio ++ [v])).bind fun out =>
        (rngLoop fs router area is (del_ratio ++ [v])).map fun out2 => out ++ out2

/-- The middle driver loop over area strings: each area starts from the
empty sample list. -/
noncomputable def areaLoop (fs : String → List String) (router : String) :
    List String → Option (List OutLine)
  | [] => some []
  | area :: rest =>
    (rngLoop fs router area rngList []).bind fun out =>
      (areaLoop fs router rest).map fun out2 => out ++ out2

/-- The outer driver loop over router names: prints the '# Router <name>'
header and then processes every area. -/
noncomputable def routerLoop (fs : String → List String) : List String → Option (List OutLine)
  | [] => some []
  | router :: rest =>
    (areaLoop fs router areas).bind fun out =>
      (routerLoop fs rest).map fun out2 => OutLine.header router :: (out ++ out2)

/-- The whole driver script, parametrised by the file system it reads. -/
noncomputable def driver (fs : String → List String) : Option (List OutLine) :=
  routerLoop fs routers

/-! ## Specification-side definitions

These follow the wording of the specification (arithmetic mean, population
standard deviation, the claimed shape of the printed output) and are the
comparison targets of the refinement theorems below. -/

/-- Arithmetic mean as the specification words it: sum divided by count. -/
def meanSpec (l : List ℚ) : ℚ := l.sum / (l.length : ℚ)

/-- Population variance as the specification words it: mean of squared
deviations from the mean, divisor the sample count. -/
def varSpec (l : List ℚ) : ℚ :=
  ((l.map fun x => (x - meanSpec l) ^ 2).sum) / (l.length : ℚ)

/-- Population standard deviation: square root of varSpec. -/
noncomputable def sdSpec (l : List ℚ) : ℝ := Real.sqrt ((varSpec l : ℚ) : ℝ)

/-- The specification's description of one printed block: the data line
shows the average of the samples collected so far (2 decimals) and a
confidence interval equal to the t-value for rng_max samples times the
standard deviation of the samples so far over the square root of rng_max
(4 decimals), followed by two blank lines. -/
noncomputable def ciSpecLine (area : String) (l : List ℚ) : List OutLine :=
  [OutLine.data area ((meanSpec l : ℚ) : ℝ) 2 ((2.776 : ℝ) * sdSpec l / Real.sqrt 5) 4,
   OutLine.blank, OutLine.blank]

/-- The specification's description of the inner loop output: one block per
run index, each computed from the sample list grown so far. -/
noncomputable def specRunLines (v : ℕ → ℚ) (area : String) : List ℕ → List ℚ → List OutLine
  | [], _ => []
  | i :: is, acc => ciSpecLine area (acc ++ [v i]) ++ specRunLines v area is (acc ++ [v i])

/-- The specification's description of one router's output: every area
processed from an empty sample list. -/
noncomputable def specRouterBlock (v : String → ℕ → ℚ) : List OutLine :=
  (areas.map fun a => specRunLines (v a) a rngList []).flatten

/-- The specification's description of the whole output: a header per
router followed by that router's blocks. -/
noncomputable def specDriver (v : String → String → ℕ → ℚ) : List OutLine :=
  (routers.map fun r => OutLine.header r :: specRouterBlock (v r)).flatten

/-- The output shape claimed by the specification: one header line per
router, then one data line per (area, run) pair carrying the area string,
an average formatted to 2 decimal places and a confidence interval
formatted to 4 decimal places, with exactly two blank lines after each
data line. -/
noncomputable def specFormat (A C : String → String → ℕ → ℝ) : List OutLine :=
  (routers.map fun r => OutLine.header r ::
    ((areas.map fun a =>
      ((List.range' 1 rng_max).map fun i =>
        [OutLine.data a (A r a i) 2 (C r a i) 4, OutLine.blank, OutLine.blank]).flatten).flatten)).flatten

/-! ## Concrete example inputs -/

/-- A one-line report file like those of the MessageStatsReport. -/
def exReport : List String := ["delivery_prob: 0.8234"]

/-- A file system in which every file is the example report. -/
def exFS : String → List String := fun _ => exReport

/-- The statistic value every example report carries. -/
def exVal : String → String → ℕ → ℚ := fun _ _ _ => 4117 / 5000

/-! ## Computation lemmas for the statistics helpers -/

/-- The summing fold of get_average computes the list sum. -/
lemma foldl_add_sum (l : List ℚ) : ∀ a : ℚ, l.foldl (fun s x => s + x) a = a + l.sum := by
  induction l with
  | nil => intro a; simp
  | cons x xs ih => intro a; simp [ih]; ring

/-- The squared-deviation fold of get_std_dev computes the sum of mapped
squares. -/
lemma foldl_sq_sum (m : ℚ) (l : List ℚ) :
    ∀ a : ℚ, l.foldl (fun v x => v + (x - m) ^ 2) a = a + ((l.map fun x => (x - m) ^ 2).sum) := by
  induction l with
  | nil => intro a; simp
  | cons x xs ih => intro a; simp [ih]; ring

/-- On a nonempty list, get_average returns the arithmetic mean. -/
lemma get_average_eq (l : List ℚ) (h : l ≠ []) : get_average l = some (meanSpec l) := by
  have hlen : l.length ≠ 0 := by simpa using h
  simp [get_average, meanSpec, hlen, foldl_add_sum]

/-- On a nonempty list, get_std_dev returns the population standard
deviation. -/
lemma get_std_dev_eq (l : List ℚ) (h : l ≠ []) : get_std_dev l = some (sdSpec l) := by
  rw [get_std_dev, get_average_eq l h]
  simp [sdSpec, varSpec, foldl_sq_sum]

/-- The t-value the driver's confidence-interval call looks up. -/
lemma t_values_four : t_values 4 = some 2.776 := by
  simp [t_values, t_table, List.lookup]

/-- The confidence interval at the configured run count. -/
lemma ci_rng_max (sd : ℝ) :
    confidence_interval_mean rng_max sd = some ((2.776 : ℝ) * sd / Real.sqrt 5) := by
  rw [confidence_interval_mean]
  simp [rng_max, t_values_four]

/-- The statistics block on a nonempty sample list. -/
lemma printStats_eq (area : String) (l : List ℚ) (h : l ≠ []) :
    printStats area l = some (ciSpecLine area l) := by
  rw [printStats, get_average_eq l h, get_std_dev_eq l h]
  simp [ci_rng_max, ciSpecLine]

/-- The inner run loop produces exactly the per-run blocks of the
specification, for any starting sample list. -/
lemma rngLoop_eq (fs : String → List String) (r a : String) (v : ℕ → ℚ)
    (H : ∀ i, get_stat (fs (fname r a i)) = some (v i)) :
    ∀ (is : List ℕ) (acc : List ℚ), rngLoop fs r a is acc = some (specRunLines v a is acc) := by
  intro is
  induction is with
  | nil => intro acc; simp [rngLoop, specRunLines]
  | cons i is ih =>
    intro acc
    have hne : acc ++ [v i] ≠ [] := by simp
    rw [rngLoop, H i]
    simp [printStats_eq _ _ hne, ih, specRunLines]

/-- The middle loop concatenates the per-area blocks. -/
lemma areaLoop_eq (fs : String → List String) (r : String) (v : String → ℕ → ℚ)
    (H : ∀ a i, get_stat (fs (fname r a i)) = some (v a i)) :
    ∀ as : List String,
      areaLoop fs r as = some ((as.map fun a => specRunLines (v a) a rngList []).flatten) := by
  intro as
  induction as with
  | nil => simp [areaLoop]
  | cons a rest ih => simp [areaLoop, rngLoop_eq fs r a (v a) (H a), ih]

/-- The outer loop emits one header per router followed by that router's
blocks. -/
lemma routerLoop_eq (fs : String → List String) (v : String → String → ℕ → ℚ)
    (H : ∀ r a i, get_stat (fs (fname r a i)) = some (v r a i)) :
    ∀ rs : List String,
      routerLoop fs rs = some ((rs.map fun r => OutLine.header r :: specRouterBlock (v r)).flatten) := by
  intro rs
  induction rs with
  | nil => simp [routerLoop]
  | cons r rest ih => simp [routerLoop, areaLoop_eq fs r (v r) (H r), ih, specRouterBlock]

/-! ## Claims about the statistics helpers -/

/-- Claim C6: for every non-empty sequence of numbers, get_average returns
the arithmetic mean (sum of the elements divided by their count), so
get_average([2,4,6]) = 4.0; for the empty sequence it fails with a
division-by-zero error. -/
theorem C6_get_average (l : List ℚ) (h : l ≠ []) :
    get_average l = some (l.sum / (l.length : ℚ)) ∧
    get_average [2, 4, 6] = some 4 ∧
    get_average ([] : List ℚ) = none := by
  refine ⟨by rw [get_average_eq l h, meanSpec], ?_, by simp [get_average]⟩
  rw [get_average_eq _ (by simp), meanSpec]
  norm_num

/-- Witness for C6 at the singleton list. -/
theorem C6_get_average_witness :
    ([1] : List ℚ) ≠ [] ∧ get_average [1] = some (([1] : List ℚ).sum / (([1] : List ℚ).length : ℚ)) :=
  ⟨by simp, (C6_get_average [1] (by simp)).1⟩

/-- Claim C7: for every non-empty sequence of numbers, get_std_dev returns
the population standard deviation (square root of the mean of squared
deviations from the mean, divisor the sample count, not count - 1);
get_std_dev([2,4,6]) is the square root of 8/3, approximately 1.633; for
the empty sequence it fails. -/
theorem C7_get_std_dev (l : List ℚ) (h : l ≠ []) :
    get_std_dev l = some (Real.sqrt ((varSpec l : ℚ) : ℝ)) ∧
    get_std_dev [2, 4, 6] = some (Real.sqrt ((8 : ℝ) / 3)) ∧
    |Real.sqrt ((8 : ℝ) / 3) - 1.633| < 0.001 ∧
    get_std_dev ([] : List ℚ) = none := by
  refine ⟨by rw [get_std_dev_eq l h, sdSpec], ?_, ?_, by simp [get_std_dev, get_average]⟩
  · rw [get_std_dev_eq _ (by simp), sdSpec]
    norm_num [varSpec, meanSpec]
  · have h1 : Real.sqrt ((8 : ℝ) / 3) < 1.634 := (Real.sqrt_lt' (by norm_num)).mpr (by norm_num)
    have h2 : (1.632 : ℝ) < Real.sqrt ((8 : ℝ) / 3) := (Real.lt_sqrt (by norm_num)).mpr (by norm_num)
    rw [abs_lt]
    constructor <;> linarith

/-- Witness for C7 at the singleton list. -/
theorem C7_get_std_dev_witness :
    ([1] : List ℚ) ≠ [] ∧ get_std_dev [1] = some (Real.sqrt ((varSpec [1] : ℚ) : ℝ)) :=
  ⟨by simp, (C7_get_std_dev [1] (by simp)).1⟩

/-- The value confidence_interval_mean actually computes at sample size 10:
degrees of freedom 9 select the table entry 2.262. -/
lemma cim_ten : confidence_interval_mean 10 1 = some ((2.262 : ℝ) * 1 / Real.sqrt 10) := by
  rw [confidence_interval_mean]
  simp [t_values, t_table, List.lookup]

/-- Counterexample to claim C2: the t-table entry for degrees of freedom 9
is 2.262, not 2.228 (2.228 is the entry for degrees of freedom 10), so
confidence_interval_mean(10, 1.0) is 2.262/sqrt(10) which differs from the
claimed 2.228/sqrt(10) ≈ 0.7044 by more than 0.01. -/
theorem C2_counterexample :
    t_values 9 ≠ some 2.228 ∧
    confidence_interval_mean 10 1 ≠ some ((2.228 : ℝ) / Real.sqrt 10) ∧
    confidence_interval_mean 10 1 = some ((2.262 : ℝ) * 1 / Real.sqrt 10) ∧
    0.01 < |(2.262 : ℝ) * 1 / Real.sqrt 10 - 0.7044| := by
  have hs1 : (3.162 : ℝ) < Real.sqrt 10 := (Real.lt_sqrt (by norm_num)).mpr (by norm_num)
  have hs2 : Real.sqrt 10 < 3.163 := (Real.sqrt_lt' (by norm_num)).mpr (by norm_num)
  have hs0 : (0 : ℝ) < Real.sqrt 10 := by linarith
  refine ⟨by simp [t_values, t_table, List.lookup]; norm_num, ?_, cim_ten, ?_⟩
  · rw [cim_ten]
    intro heq
    rw [Option.some_inj] at heq
    have hne : Real.sqrt 10 ≠ 0 := ne_of_gt hs0
    field_simp at heq
    norm_num at heq
  · have hlow : (2.262 : ℝ) / 3.163 < 2.262 / Real.sqrt 10 :=
      div_lt_div_of_pos_left (by norm_num) hs0 hs2
    have : (0.7151 : ℝ) < 2.262 / Real.sqrt 10 := by
      have : (0.7151 : ℝ) < 2.262 / 3.163 := by norm_num
      linarith
    rw [abs_of_pos (by linarith)]
    linarith

/-- Claim C2 as amended: confidence_interval_mean(10, 1.0) equals
2.262/sqrt(10) ≈ 0.7153, using the t-table critical value 2.262 for
degrees of freedom 9. -/
theorem C2_amended :
    t_values 9 = some 2.262 ∧
    confidence_interval_mean 10 1 = some ((2.262 : ℝ) * 1 / Real.sqrt 10) ∧
    |(2.262 : ℝ) * 1 / Real.sqrt 10 - 0.7153| < 0.001 := by
  have hs1 : (3.162 : ℝ) < Real.sqrt 10 := (Real.lt_sqrt (by norm_num)).mpr (by norm_num)
  have hs2 : Real.sqrt 10 < 3.163 := (Real.sqrt_lt' (by norm_num)).mpr (by norm_num)
  have hs0 : (0 : ℝ) < Real.sqrt 10 := by linarith
  refine ⟨by simp [t_values, t_table, List.lookup], cim_ten, ?_⟩
  have hlow : (2.262 : ℝ) / 3.163 < 2.262 / Real.sqrt 10 :=
    div_lt_div_of_pos_left (by norm_num) hs0 hs2
  have hhigh : (2.262 : ℝ) / Real.sqrt 10 < 2.262 / 3.162 :=
    div_lt_div_of_pos_left (by norm_num) (by norm_num) hs1
  have e1 : (0.7151 : ℝ) < 2.262 / 3.163 := by norm_num
  have e2 : (2.262 : ℝ) / 3.162 < 0.7155 := by norm_num
  rw [abs_lt]
  constructor <;> (rw [mul_one]; linarith)

/-- Claim C3: for sample sizes 2 through 19 the t-distribution branch
returns the table value at degrees of freedom n - 1 times sample_sd over
sqrt(n); for sample sizes of at least 30 the normal-approximation branch
returns 1.96 times sample_sd over sqrt(n); in particular
confidence_interval_mean(50, 1.0) is 1.96/sqrt(50), approximately 0.2772. -/
theorem C3_branches :
    (∀ n : ℕ, 2 ≤ n → n ≤ 19 → ∀ sd : ℝ, ∃ t : ℚ,
        t_values ((n : ℤ) - 1) = some t ∧
        confidence_interval_mean n sd = some ((t : ℝ) * sd / Real.sqrt (n : ℝ))) ∧
    (∀ n : ℕ, 30 ≤ n → ∀ sd : ℝ,
        confidence_interval_mean n sd = some (1.96 * sd / Real.sqrt (n : ℝ))) ∧
    confidence_interval_mean 50 1 = some ((1.96 : ℝ) * 1 / Real.sqrt 50) ∧
    |(1.96 : ℝ) * 1 / Real.sqrt 50 - 0.2772| < 0.001 := by
  refine ⟨?_, ?_, ?_, ?_⟩
  · intro n h2 h19 sd
    interval_cases n <;> simp [confidence_interval_mean, t_values, t_table, List.lookup]
  · intro n h30 sd
    simp only [confidence_interval_mean]
    rw [if_neg (by omega)]
  · simp [confidence_interval_mean]
  · have hs1 : (7.071 : ℝ) < Real.sqrt 50 := (Real.lt_sqrt (by norm_num)).mpr (by norm_num)
    have hs2 : Real.sqrt 50 < 7.0711 := (Real.sqrt_lt' (by norm_num)).mpr (by norm_num)
    have hs0 : (0 : ℝ) < Real.sqrt 50 := by linarith
    have hlow : (1.96 : ℝ) / 7.0711 < 1.96 / Real.sqrt 50 :=
      div_lt_div_of_pos_left (by norm_num) hs0 hs2
    have hhigh : (1.96 : ℝ) / Real.sqrt 50 < 1.96 / 7.071 :=
      div_lt_div_of_pos_left (by norm_num) (by norm_num) hs1
    have e1 : (0.2771 : ℝ) < 1.96 / 7.0711 := by norm_num
    have e2 : (1.96 : ℝ) / 7.071 < 0.2772 := by norm_num
    rw [abs_lt]
    constructor <;> (rw [mul_one]; linarith)

/-- Witness for C3 at sample sizes 10 and 30. -/
theorem C3_branches_witness :
    (∃ t : ℚ, t_values (((10 : ℕ) : ℤ) - 1) = some t ∧
        confidence_interval_mean 10 1 = some ((t : ℝ) * 1 / Real.sqrt ((10 : ℕ) : ℝ))) ∧
    confidence_interval_mean 30 1 = some (1.96 * 1 / Real.sqrt ((30 : ℕ) : ℝ)) :=
  ⟨C3_branches.1 10 (by norm_num) (by norm_num) 1, C3_branches.2.1 30 (by norm_num) 1⟩

/-- Claim C4: for every sample size between 20 and 29 the degrees of
freedom n - 1 lie outside the table range 1 through 18, so the lookup
fails (a KeyError, modelled as none) rather than returning a default. -/
theorem C4_out_of_table (n : ℕ) (h20 : 20 ≤ n) (h29 : n ≤ 29) (sd : ℝ) :
    confidence_interval_mean n sd = none := by
  interval_cases n <;> simp [confidence_interval_mean, t_values, t_table, List.lookup]

/-- Witness for C4 at sample size 25. -/
theorem C4_out_of_table_witness :
    (20 ≤ 25 ∧ 25 ≤ 29) ∧ confidence_interval_mean 25 0 = none :=
  ⟨⟨by norm_num, by norm_num⟩, C4_out_of_table 25 (by norm_num) (by norm_num) 0⟩

/-- Claim C9: confidence_interval_mean fails with a lookup error at sample
sizes 1 and 0 (degrees of freedom 0 and -1 are absent from the table), and
on the whole t-distribution branch (sample sizes below 30) it succeeds
exactly for sample sizes 2 through 19. -/
theorem C9_degenerate_sizes (sd : ℝ) :
    confidence_interval_mean 1 sd = none ∧
    confidence_interval_mean 0 sd = none ∧
    ∀ n : ℕ, n < 30 → ((confidence_interval_mean n sd).isSome ↔ (2 ≤ n ∧ n ≤ 19)) := by
  refine ⟨by simp [confidence_interval_mean, t_values, t_table, List.lookup],
         by simp [confidence_interval_mean, t_values, t_table, List.lookup], ?_⟩
  intro n hn
  interval_cases n <;> simp [confidence_interval_mean, t_values, t_table, List.lookup]

/-- Witness for C9 at sample sizes 1 and 25. -/
theorem C9_degenerate_sizes_witness :
    confidence_interval_mean 1 0 = none ∧
    (25 < 30 ∧ ((confidence_interval_mean 25 0).isSome ↔ (2 ≤ 25 ∧ 25 ≤ 19))) :=
  ⟨(C9_degenerate_sizes 0).1, by norm_num, (C9_degenerate_sizes 0).2.2 25 (by norm_num)⟩

/-! ## Claims about get_stat -/

/-- Scanning past lines whose first field does not start with the
requested name leaves the default result 0.0. -/
lemma getStatAux_no_match (name : List Char) :
    ∀ lines : List String,
      (∀ l ∈ lines, ∃ f0 fs, csvRecord l = f0 :: fs ∧ name.isPrefixOf f0 = false) →
      getStatAux name lines = some 0 := by
  intro lines
  induction lines with
  | nil => intro _; simp [getStatAux]
  | cons l ls ih =>
    intro h
    obtain ⟨f0, fs, hrec, hnm⟩ := h l (by simp)
    simp only [getStatAux, hrec, hnm]
    exact ih fun l' hl' => h l' (by simp [hl'])

/-- The first line whose first field starts with the requested name
delivers its parsed second field, whatever follows it. -/
lemma getStatAux_first_match (name : List Char) (suf : List String) (l : String)
    (f0 f1 : List Char) (rest : List (List Char)) (v : ℚ)
    (hrec : csvRecord l = f0 :: f1 :: rest)
    (hm : name.isPrefixOf f0 = true)
    (hv : floatOfChars f1 = some v) :
    ∀ pre : List String,
      (∀ l' ∈ pre, ∃ g0 gs, csvRecord l' = g0 :: gs ∧ name.isPrefixOf g0 = false) →
      getStatAux name (pre ++ l :: suf) = some v := by
  intro pre
  induction pre with
  | nil => intro _; simp [getStatAux, hrec, hm, hv]
  | cons p ps ih =>
    intro hpre
    obtain ⟨g0, gs, hg, hng⟩ := hpre p (by simp)
    simp only [List.cons_append, getStatAux, hg, hng]
    exact ih fun l' hl' => hpre l' (by simp [hl'])

/-- Claim C5: get_stat scans the lines split on single-space delimiters
and returns, parsed as a float, the second field of the first line whose
first field starts with the requested name; if no line matches it returns
0.0 instead of failing; a file containing the line
'delivery_prob: 0.8234' yields 0.8234 for the name 'delivery_prob'. -/
theorem C5_get_stat :
    get_stat ["delivery_prob: 0.8234"] "delivery_prob" = some (4117 / 5000) ∧
    (∀ (lines : List String) (name : String),
      (∀ l ∈ lines, ∃ f0 fs, csvRecord l = f0 :: fs ∧ name.toList.isPrefixOf f0 = false) →
      get_stat lines name = some 0) ∧
    (∀ (pre suf : List String) (l name : String) (f0 f1 : List Char)
        (rest : List (List Char)) (v : ℚ),
      (∀ l' ∈ pre, ∃ g0 gs, csvRecord l' = g0 :: gs ∧ name.toList.isPrefixOf g0 = false) →
      csvRecord l = f0 :: f1 :: rest →
      name.toList.isPrefixOf f0 = true →
      floatOfChars f1 = some v →
      get_stat (pre ++ l :: suf) name = some v) := by
  refine ⟨?_, ?_, ?_⟩
  · simp [get_stat, getStatAux, csvRecord, splitOnChar, floatOfChars, digitsToNat]
    norm_num
  · intro lines name h
    exact getStatAux_no_match name.toList lines h
  · intro pre suf l name f0 f1 rest v hpre hrec hm hv
    exact getStatAux_first_match name.toList suf l f0 f1 rest v hrec hm hv pre hpre

/-- Witness for C5: the no-match fallback on a one-line file and the
first-match clause with one non-matching line in front. -/
theorem C5_get_stat_witness :
    get_stat ["foo 1"] "delivery_prob" = some 0 ∧
    get_stat (["foo 1"] ++ "delivery_prob: 0.8234" :: []) "delivery_prob" = some (4117 / 5000) := by
  have hfoo : ∀ l ∈ (["foo 1"] : List String),
      ∃ f0 fs, csvRecord l = f0 :: fs ∧ ("delivery_prob").toList.isPrefixOf f0 = false := by
    intro l hl
    simp only [List.mem_singleton] at hl
    subst hl
    exact ⟨"foo".toList, ["1".toList], by simp [csvRecord, splitOnChar], by simp [List.isPrefixOf]⟩
  constructor
  · exact C5_get_stat.2.1 ["foo 1"] "delivery_prob" hfoo
  · exact C5_get_stat.2.2 ["foo 1"] [] "delivery_prob: 0.8234" "delivery_prob"
      "delivery_prob:".toList "0.8234".toList [] (4117 / 5000) hfoo
      (by simp [csvRecord, splitOnChar]) (by simp [List.isPrefixOf])
      (by simp [floatOfChars, splitOnChar, digitsToNat]; norm_num)

/-! ## Claims about the driver -/

/-- Claim C1: for each router and area in the fixed lists, the driver
starts from an empty sample list and, for run indices 1 through 5, reads
the file named scenario_(router)_area-(area)_rng-(i)_MessageStatsReport.txt,
appends the extracted delivery_prob statistic, and immediately prints a
line whose average is over the samples collected so far but whose
confidence interval is __t_values[4] times the standard deviation of the
first i samples divided by sqrt(5), the final run count serving as the
sample-size parameter.  The hypothesis supplies, for each file the driver
may read, the statistic value it contains. -/
theorem C1_driver_behaviour (fs : String → List String) (v : String → String → ℕ → ℚ)
    (H : ∀ r a i, get_stat (fs (fname r a i)) = some (v r a i)) :
    t_values 4 = some 2.776 ∧ driver fs = some (specDriver v) := by
  refine ⟨t_values_four, ?_⟩
  rw [driver, routerLoop_eq fs v H routers]
  rfl

/-- Witness for C1 on the concrete example file system. -/
theorem C1_driver_behaviour_witness :
    (∀ r a i, get_stat (exFS (fname r a i)) = some (exVal r a i)) ∧
    (t_values 4 = some 2.776 ∧ driver exFS = some (specDriver exVal)) := by
  have H : ∀ r a i, get_stat (exFS (fname r a i)) = some (exVal r a i) := by
    intro r a i
    simp [exFS, exReport, exVal, get_stat, getStatAux, csvRecord, splitOnChar,
      floatOfChars, digitsToNat]
    norm_num
  exact ⟨H, C1_driver_behaviour exFS exVal H⟩

/-- Claim C8: the driver prints one '# Router <name>' header per router,
followed by one data line per (area, run) pair formatted as the area
string, the average to 2 decimal places and the confidence interval to 4
decimal places, with exactly two blank lines after each data line. -/
theorem C8_output_format (fs : String → List String) (v : String → String → ℕ → ℚ)
    (H : ∀ r a i, get_stat (fs (fname r a i)) = some (v r a i)) :
    ∃ A C : String → String → ℕ → ℝ, driver fs = some (specFormat A C) := by
  refine ⟨fun r a i => ((meanSpec ((List.range' 1 i).map (v r a)) : ℚ) : ℝ),
          fun r a i => (2.776 : ℝ) * sdSpec ((List.range' 1 i).map (v r a)) / Real.sqrt 5, ?_⟩
  rw [driver, routerLoop_eq fs v H routers]
  rfl

/-- Witness for C8 on the concrete example file system. -/
theorem C8_output_format_witness :
    (∀ r a i, get_stat (exFS (fname r a i)) = some (exVal r a i)) ∧
    ∃ A C : String → String → ℕ → ℝ, driver exFS = some (specFormat A C) := by
  have H : ∀ r a i, get_stat (exFS (fname r a i)) = some (exVal r a i) := by
    intro r a i
    simp [exFS, exReport, exVal, get_stat, getStatAux, csvRecord, splitOnChar,
      floatOfChars, digitsToNat]
    norm_num
  exact ⟨H, C8_output_format exFS exVal H⟩

/-- Claim C10: a singleton sample has zero population standard deviation,
so the first line printed for each (router, area) combination — produced
after only one sample has been read — always shows a confidence interval
of 0. -/
theorem C10_first_line_ci_zero (x : ℚ) (fs : String → List String) (r a : String) (v : ℕ → ℚ)
    (H : ∀ i, get_stat (fs (fname r a i)) = some (v i)) :
    get_std_dev [x] = some 0 ∧
    ∃ rest, rngLoop fs r a rngList [] =
      some (OutLine.data a ((v 1 : ℚ) : ℝ) 2 0 4 :: rest) := by
  constructor
  · simp [get_std_dev, get_average]
  · have hEq : specRunLines v a rngList [] =
        OutLine.data a ((v 1 : ℚ) : ℝ) 2 0 4 :: OutLine.blank :: OutLine.blank ::
          specRunLines v a (List.range' 2 4) [v 1] := by
      show specRunLines v a (1 :: List.range' 2 4) [] = _
      rw [specRunLines]
      simp [ciSpecLine, meanSpec, sdSpec, varSpec]
    rw [rngLoop_eq fs r a v H rngList [], hEq]
    exact ⟨_, rfl⟩

/-- Witness for C10 on the concrete example file system. -/
theorem C10_first_line_ci_zero_witness :
    get_std_dev [1] = some 0 ∧
    ∃ rest, rngLoop exFS "EpidemicRouter" "500,500" rngList [] =
      some (OutLine.data "500,500" (((4117 : ℚ) / 5000 : ℚ) : ℝ) 2 0 4 :: rest) := by
  have H : ∀ i, get_stat (exFS (fname "EpidemicRouter" "500,500" i)) = some (4117 / 5000 : ℚ) := by
    intro i
    simp [exFS, exReport, get_stat, getStatAux, csvRecord, splitOnChar,
      floatOfChars, digitsToNat]
    norm_num
  exact C10_first_line_ci_zero 1 exFS "EpidemicRouter" "500,500" (fun _ => 4117 / 5000) H
